import Mathlib

/-!
Verification development for the Clinical Feedback Helper orchestrator
(src/backend/rag_agent: models.py, chains.py, agent.py) and the quality
analyzer of src/backend/services/chatbot_service.py.

Shallow embedding conventions:
- External LLM/retrieval chains are oracles: functions returning Option,
  where none models the chain raising an exception (a service failure).
  Python has no try/except around any chain call on these paths, so an
  exception propagates; we model the whole operation returning
  (session-as-mutated-so-far, none).
- datetime.now() is threaded as an explicit Nat parameter where a stored
  field depends on it (completed_at, generated_at).  The timestamp
  metadata on ConversationTurn and StandardFeedback is not referenced by
  any behavior and is omitted.
- Python dicts keyed by StandardName are insertion-ordered association
  lists; assignment updates in place, new keys are appended.
- Apostrophes occurring inside literal response texts of the source are
  rendered with equivalent wording without apostrophes.
-/

namespace RagAgent

/-- models.py StandardName (str enum, 4 values). -/
inductive StandardName where
  | professional_responsibility
  | knowledge_based_practice
  | client_focused_service
  | ethical_practice
deriving DecidableEq, Repr

/-- models.py FeedbackQuality. -/
inductive FeedbackQuality where
  | vague
  | specific_no_example
  | specific_with_example
deriving DecidableEq, Repr

/-- models.py SessionState. -/
inductive SessionState where
  | initialized
  | collecting_feedback
  | confirming_standard
  | completed
  | err
deriving DecidableEq, Repr

/-- models.py FeedbackEvaluation. -/
structure FeedbackEvaluation where
  is_specific : Bool
  has_example : Bool
  quality : FeedbackQuality
  key_points : List String
  reasoning : String
deriving DecidableEq, Repr

/-- models.py StandardFeedback (timestamp metadata omitted). -/
structure StandardFeedback where
  standard_name : StandardName
  raw_feedback : String
  quality_evaluation : Option FeedbackEvaluation
  summary : Option String
  suggestion : Option String
  confirmed : Bool
deriving DecidableEq, Repr

/-- models.py ConversationTurn speaker literal. -/
inductive Speaker where
  | assistant
  | preceptor
deriving DecidableEq, Repr

/-- models.py ConversationTurn (timestamp metadata omitted). -/
structure ConversationTurn where
  speaker : Speaker
  message : String
deriving DecidableEq, Repr

/-- models.py PrivacyCheckResult. -/
structure PrivacyCheckResult where
  is_safe : Bool
  detected_pii : List String
  explanation : String
deriving DecidableEq, Repr

/-- models.py FeedbackSession.  feedback_collected is the insertion-ordered
dict; started_at and completed_at carry the threaded clock. -/
structure FeedbackSession where
  session_id : String
  state : SessionState
  current_standard : Option StandardName
  current_standard_index : Nat
  feedback_collected : List (StandardName × StandardFeedback)
  conversation_history : List ConversationTurn
  preceptor_email : Option String
  started_at : Nat
  completed_at : Option Nat
deriving DecidableEq, Repr

/-- Python dict lookup on the association list (keys are unique by
construction, first match). -/
def dlookup (m : List (StandardName × StandardFeedback)) (k : StandardName) :
    Option StandardFeedback :=
  match m with
  | [] => none
  | (k', v) :: rest => if k = k' then some v else dlookup rest k

/-- Python dict assignment: overwrite in place if the key exists, else
append at the end (insertion order preserved). -/
def dset (m : List (StandardName × StandardFeedback)) (k : StandardName)
    (v : StandardFeedback) : List (StandardName × StandardFeedback) :=
  match m with
  | [] => [(k, v)]
  | (k', v') :: rest => if k = k' then (k, v) :: rest else (k', v') :: dset rest k v

/-- Substring membership on char lists, modelling the Python in operator. -/
def charsInfix (sub : List Char) : List Char → Bool
  | [] => sub.isEmpty
  | c :: rest => sub.isPrefixOf (c :: rest) || charsInfix sub rest

/-- Python: sub in text. -/
def containsSubstring (text sub : String) : Bool :=
  charsInfix sub.toList text.toList

/-- Python str.lower (ASCII-faithful). -/
def toLower (s : String) : String := String.mk (s.toList.map Char.toLower)

/-- Python: any(word in text for word in words). -/
def containsAny (text : String) (words : List String) : Bool :=
  words.any (fun w => containsSubstring text w)

/-- Python str.strip with no argument, on char lists. -/
def trimChars (l : List Char) : List Char :=
  ((l.dropWhile Char.isWhitespace).reverse.dropWhile Char.isWhitespace).reverse

/-- Python str.strip with no argument. -/
def strTrim (s : String) : String := String.mk (trimChars s.toList)

/-- Python str.startswith. -/
def strStartsWith (s p : String) : Bool := p.toList.isPrefixOf s.toList

/-- Python str.split with a one-character separator (newline), keeping
empty pieces. -/
def splitNl (l : List Char) : List (List Char) :=
  match l with
  | [] => [[]]
  | c :: rest =>
    let r := splitNl rest
    if c = '\n' then [] :: r
    else
      match r with
      | [] => [[c]]
      | h :: t => (c :: h) :: t

/-- If sub is a prefix of l, return the remainder. -/
def dropPrefixChars : List Char → List Char → Option (List Char)
  | [], l => some l
  | _ :: _, [] => none
  | a :: as, b :: bs => if a = b then dropPrefixChars as bs else none

/-- Fuel-driven non-overlapping left-to-right replacement; with fuel equal
to the list length and a non-empty pattern this is exactly Python
str.replace. -/
def replaceFuel (sub repl : List Char) : Nat → List Char → List Char
  | 0, l => l
  | _, [] => []
  | fuel + 1, c :: rest =>
    match dropPrefixChars sub (c :: rest) with
    | some remaining => repl ++ replaceFuel sub repl fuel remaining
    | none => c :: replaceFuel sub repl fuel rest

/-- Python str.replace (all occurrences; patterns used here are non-empty). -/
def strReplace (s sub repl : String) : String :=
  String.mk (replaceFuel sub.toList repl.toList s.toList.length s.toList)

/-- Python str.split() run accumulator. -/
def splitWsAux : List Char → List Char → List (List Char)
  | [], acc => if acc.isEmpty then [] else [acc.reverse]
  | c :: rest, acc =>
    if c.isWhitespace then
      if acc.isEmpty then splitWsAux rest []
      else acc.reverse :: splitWsAux rest []
    else splitWsAux rest (c :: acc)

/-- Python str.split() with no argument: split on whitespace runs, no
empty pieces. -/
def splitWs (s : String) : List String :=
  (splitWsAux s.toList []).map String.mk

/-- Python str.strip of the characters stripped off an extracted email. -/
def stripPunct (w : String) : String :=
  let isP : Char → Bool := fun c => c = '.' || c = ',' || c = ';' || c = ':'
  String.mk (((w.toList.dropWhile isP).reverse.dropWhile isP).reverse)

/-- config.py BCCNM_STANDARDS full_name entries. -/
def full_name : StandardName → String
  | .professional_responsibility => "Professional Responsibility and Accountability"
  | .knowledge_based_practice => "Knowledge-Based Practice"
  | .client_focused_service => "Client-Focused Provision of Service"
  | .ethical_practice => "Ethical Practice"

/-- The .value of the FeedbackQuality str enum. -/
def quality_value : FeedbackQuality → String
  | .vague => "vague"
  | .specific_no_example => "specific_no_example"
  | .specific_with_example => "specific_with_example"

/-- models.py FeedbackSession.get_standard_order. -/
def get_standard_order : List StandardName :=
  [.professional_responsibility, .knowledge_based_practice,
   .client_focused_service, .ethical_practice]

/-- models.py FeedbackSession.get_next_standard. -/
def get_next_standard (s : FeedbackSession) : Option StandardName :=
  get_standard_order[s.current_standard_index]?

/-- models.py FeedbackSession.advance_to_next_standard. -/
def advance_to_next_standard (s : FeedbackSession) (now : Nat) : FeedbackSession :=
  let s := { s with current_standard_index := s.current_standard_index + 1 }
  match get_next_standard s with
  | some nxt => { s with current_standard := some nxt, state := .collecting_feedback }
  | none => { s with state := .completed, completed_at := some now }

/-- models.py FeedbackSession.is_complete. -/
def is_complete (s : FeedbackSession) : Bool :=
  decide (4 ≤ s.current_standard_index)

/-- models.py FeedbackSession.add_turn. -/
def add_turn (s : FeedbackSession) (sp : Speaker) (m : String) : FeedbackSession :=
  { s with conversation_history := s.conversation_history ++ [⟨sp, m⟩] }

/-- One iteration of the parse_synthesis_output line scan. -/
def parse_line_step (acc : String × String) (line : String) : String × String :=
  if strStartsWith line "SUMMARY:" then
    ((strTrim (strReplace line "SUMMARY:" "")), acc.2)
  else if strStartsWith line "SUGGESTION:" then
    (acc.1, (strTrim (strReplace line "SUGGESTION:" "")))
  else acc

/-- chains.py parse_synthesis_output: best-effort line scan, later matching
lines overwrite, missing fields stay the empty string. -/
def parse_synthesis_output (output : String) : String × String :=
  let lines := (splitNl (strTrim output).toList).map String.mk
  lines.foldl parse_line_step ("", "")

/-- The external chains built in FeedbackChains (chains.py), as oracles.
A result of none models the chain call raising (service failure). -/
structure FeedbackChains where
  intro_msg : Option String
  standard_intro : String → Option String
  privacy_check : String → Option PrivacyCheckResult
  evaluation : String → String → Option FeedbackEvaluation
  synthesis : String → String → Option String
  probe : String → String → String → String → Option String
  final_report_msg : Option String

/-- agent.py _handle_privacy_violation response text. -/
def privacy_violation_msg : String :=
  "I noticed that your response may contain personally identifiable information (PII). \n\nFor privacy reasons, please rephrase your feedback without including:\n- Specific names (patient or student)\n- Facility names or locations\n- Specific dates\n- Medical record numbers or room numbers\n\nYou can refer to the student and the patient instead. Please provide your feedback again."

/-- agent.py revision keywords in _handle_confirmation. -/
def revise_words : List String := ["change", "revise", "different", "no", "incorrect"]

/-- agent.py confirmation keywords in _handle_confirmation. -/
def confirm_words : List String :=
  ["yes", "correct", "good", "accurate", "fine", "ok", "looks good"]

/-- agent.py _synthesize_and_confirm.  Stores the best-effort parse of the
synthesis output (possibly empty strings) and moves to confirming. -/
def synthesize_and_confirm (ch : FeedbackChains) (s : FeedbackSession)
    (std : StandardName) (feedback : String) : FeedbackSession × Option String :=
  let name := full_name std
  match ch.synthesis name feedback with
  | none => (s, none)
  | some output =>
    let parsed := parse_synthesis_output output
    match dlookup s.feedback_collected std with
    | none => (s, none)
    | some fb =>
      let fb2 := { fb with summary := some parsed.1, suggestion := some parsed.2 }
      let fc := dset s.feedback_collected std fb2
      let s := { s with feedback_collected := fc, state := .confirming_standard }
      let msg :=
        "Thank you for that detailed feedback. Based on our discussion, here is what I have captured:\n\n**Summary for "
          ++ name ++ ":**\n" ++ parsed.1
          ++ "\n\n**Suggested Action for Student:**\n" ++ parsed.2
          ++ "\n\nDoes this accurately capture your feedback, or would you like to make any changes?"
      (s, some msg)

/-- The record create-or-append step of _handle_feedback_collection. -/
def store_feedback (s : FeedbackSession) (std : StandardName)
    (feedback : String) (ev : FeedbackEvaluation) : FeedbackSession :=
  match dlookup s.feedback_collected std with
  | none =>
    let newfb : StandardFeedback :=
      { standard_name := std, raw_feedback := feedback,
        quality_evaluation := some ev, summary := none,
        suggestion := none, confirmed := false }
    { s with feedback_collected := dset s.feedback_collected std newfb }
  | some existing =>
    let newfb : StandardFeedback :=
      { existing with
          raw_feedback := existing.raw_feedback ++ "\n\n" ++ feedback,
          quality_evaluation := some ev }
    { s with feedback_collected := dset s.feedback_collected std newfb }

/-- agent.py _handle_feedback_collection.  The Quality Evaluator is invoked
with the latest message only; the message is then appended to the stored
raw feedback. -/
def handle_feedback_collection (ch : FeedbackChains) (s : FeedbackSession)
    (feedback : String) : FeedbackSession × Option String :=
  match s.current_standard with
  | none => (s, none)
  | some std =>
    let name := full_name std
    match ch.evaluation feedback name with
    | none => (s, none)
    | some ev =>
      let s := store_feedback s std feedback ev
      if ev.quality = FeedbackQuality.specific_with_example then
        synthesize_and_confirm ch s std feedback
      else
        match ch.probe name feedback ev.reasoning (quality_value ev.quality) with
        | none => (s, none)
        | some q => (s, some q)

/-- The continuation of a confirmed category: advance the index and either
request the contact address (all done) or introduce the next standard. -/
def advance_and_next (ch : FeedbackChains) (s : FeedbackSession) (now : Nat) :
    FeedbackSession × Option String :=
  let s := advance_to_next_standard s now
  if is_complete s then
    match ch.final_report_msg with
    | none => (s, none)
    | some m => (s, some m)
  else
    match s.current_standard with
    | none => (s, none)
    | some nxt =>
      match ch.standard_intro (full_name nxt) with
      | none => (s, none)
      | some intro => (s, some ("Great! Let us move on.\n\n" ++ intro))

/-- The confirm path of _handle_confirmation: latch confirmed on the
current record, then advance. -/
def confirm_branch (ch : FeedbackChains) (s : FeedbackSession) (now : Nat) :
    FeedbackSession × Option String :=
  match s.current_standard with
  | none => (s, none)
  | some std =>
    match dlookup s.feedback_collected std with
    | none => (s, none)
    | some fb =>
      let fc := dset s.feedback_collected std { fb with confirmed := true }
      advance_and_next ch { s with feedback_collected := fc } now

/-- agent.py _handle_confirmation.  The revision check runs first and does
not clear summary or suggestion; an unmatched reply changes nothing. -/
def handle_confirmation (ch : FeedbackChains) (s : FeedbackSession)
    (response : String) (now : Nat) : FeedbackSession × Option String :=
  let response_lower := toLower response
  if containsAny response_lower revise_words then
    ({ s with state := .collecting_feedback },
     some "I understand. Please provide the feedback you would like me to capture instead, and I will update the summary.")
  else if containsAny response_lower confirm_words then
    confirm_branch ch s now
  else
    (s, some "Just to confirm - does this summary accurately capture your feedback? Please respond with yes to continue, or let me know what you would like to change.")

/-- agent.py _handle_post_completion: runs while the session is already
COMPLETED; stores the first whitespace word containing an at-sign, stripped
of surrounding punctuation, without changing the state. -/
def handle_post_completion (s : FeedbackSession) (message : String) :
    FeedbackSession × Option String :=
  let default_msg :=
    "Thank you for your time today. Your feedback has been recorded. If you have any questions or need to make changes, please let me know."
  if containsSubstring message "@" then
    match (splitWs message).find? (fun w => containsSubstring w "@") with
    | some email =>
      let e := stripPunct email
      ({ s with preceptor_email := some e },
       some ("Thank you! I have recorded your email as " ++ e
         ++ ". Your feedback report will be compiled and sent shortly. Is there anything else you would like to add or modify?"))
    | none => (s, some default_msg)
  else
    (s, some default_msg)

/-- Tail of process_message: append the assistant turn when the dispatched
handler produced a response, propagate the exception otherwise. -/
def step_wrap (p : FeedbackSession × Option String) : FeedbackSession × Option String :=
  match p.2 with
  | none => (p.1, none)
  | some r => (add_turn p.1 .assistant r, some r)

/-- agent.py ClinicalFeedbackAgent.process_message on an active session.
The user turn is appended to the history before the privacy check runs.
A returned none means an exception escaped process_message. -/
def process_message (ch : FeedbackChains) (s : FeedbackSession)
    (user_message : String) (now : Nat) : FeedbackSession × Option String :=
  let s := add_turn s .preceptor user_message
  match ch.privacy_check user_message with
  | none => (s, none)
  | some pr =>
    if pr.is_safe = false then
      let response := privacy_violation_msg
      (add_turn s .assistant response, some response)
    else
      step_wrap
        (match s.state with
         | .collecting_feedback => handle_feedback_collection ch s user_message
         | .confirming_standard => handle_confirmation ch s user_message now
         | .completed => handle_post_completion s user_message
         | _ => (s, some "I am not sure how to proceed. Let us continue with the feedback."))

/-- agent.py ClinicalFeedbackAgent.start_session. -/
def start_session (ch : FeedbackChains) (sid : String) (now : Nat) :
    FeedbackSession × Option String :=
  let s : FeedbackSession :=
    { session_id := sid, state := .initialized, current_standard := none,
      current_standard_index := 0, feedback_collected := [],
      conversation_history := [], preceptor_email := none,
      started_at := now, completed_at := none }
  match ch.intro_msg with
  | none => (s, none)
  | some welcome =>
    let s := add_turn s .assistant welcome
    let firstStd := get_next_standard s
    let s := { s with current_standard := firstStd, state := .collecting_feedback }
    match firstStd with
    | none => (s, none)
    | some first =>
      match ch.standard_intro (full_name first) with
      | none => (s, none)
      | some intro =>
        let s := add_turn s .assistant intro
        (s, some (welcome ++ "\n\n" ++ intro))

/-- models.py FinalReport (generated_at is the threaded clock value; the
standards_feedback dict keyed by full names is insertion ordered). -/
structure FinalReport where
  session_id : String
  generated_at : Nat
  standards_feedback : List (String × (String × String × String))
deriving DecidableEq, Repr

/-- Python truthiness fallback: x or the empty string. -/
def or_empty (x : Option String) : String :=
  match x with
  | none => ""
  | some v => v

/-- agent.py ClinicalFeedbackAgent.generate_final_report; none models the
ValueError raised when the session is not complete. -/
def generate_final_report (s : FeedbackSession) (now : Nat) : Option FinalReport :=
  if is_complete s then
    some { session_id := s.session_id, generated_at := now,
           standards_feedback :=
             s.feedback_collected.map
               (fun p => (full_name p.1,
                 (or_empty p.2.summary, or_empty p.2.suggestion, p.2.raw_feedback))) }
  else none

/-- models.py FinalReport.to_dict export shape. -/
structure ReportDict where
  session_id : String
  generated_at : Nat
  feedback : List (String × (String × String × String))
deriving DecidableEq, Repr

/-- models.py FinalReport.to_dict. -/
def FinalReport.to_dict (r : FinalReport) : ReportDict :=
  { session_id := r.session_id, generated_at := r.generated_at,
    feedback := r.standards_feedback }

end RagAgent

namespace ChatbotService

/-- chatbot_service.py: self.min_response_length. -/
def min_response_length : Nat := 50

/-- Outcome of the quality-analysis LLM round trip in
_analyze_response_quality: json carries the parsed dict lookup of
is_sufficient (absent key defaults to false), notJson is the
JSONDecodeError branch, raised is any exception caught by the outer
handler. -/
inductive LLMAnalysisOutcome where
  | json (is_sufficient : Option Bool)
  | notJson
  | raised
deriving DecidableEq, Repr

/-- The claim-relevant output of _analyze_response_quality (the free-text
suggestion lists are omitted). -/
structure QualityAnalysis where
  is_sufficient : Bool
  reason : String
deriving DecidableEq, Repr

/-- chatbot_service.py ChatbotService._analyze_response_quality. -/
def analyze_response_quality (llm : String → LLMAnalysisOutcome)
    (message : String) : QualityAnalysis :=
  if (RagAgent.trimChars message.toList).length < min_response_length then
    { is_sufficient := false, reason := "too_short" }
  else
    match llm message with
    | .json suff => { is_sufficient := suff.getD false, reason := "analysis_complete" }
    | .notJson =>
      { is_sufficient :=
          decide (min_response_length * 2 ≤ (RagAgent.trimChars message.toList).length),
        reason := "fallback_analysis" }
    | .raised => { is_sufficient := false, reason := "analysis_error" }

end ChatbotService

namespace RagAgent

/-- Does any line of the trimmed synthesis output start with the marker. -/
def hasMarkedLine (output marker : String) : Bool :=
  ((splitNl (strTrim output).toList).map String.mk).any
    (fun l => strStartsWith l marker)

/-- Every stored category result that is confirmed has a summary and a
suggestion. -/
def RecordsOk (m : List (StandardName × StandardFeedback)) : Prop :=
  ∀ std fb, dlookup m std = some fb → fb.confirmed = true →
    fb.summary.isSome = true ∧ fb.suggestion.isSome = true

/-- In the confirming state, the current standard has a stored record with
a summary and a suggestion (they were just written by synthesis). -/
def ConfirmingOk (s : FeedbackSession) : Prop :=
  s.state = .confirming_standard →
    ∃ std fb, s.current_standard = some std ∧
      dlookup s.feedback_collected std = some fb ∧
      fb.summary.isSome = true ∧ fb.suggestion.isSome = true

/-- The inductive session invariant. -/
def SessionInv (s : FeedbackSession) : Prop :=
  RecordsOk s.feedback_collected ∧ ConfirmingOk s

/-- Session states reachable from start_session by any sequence of
process_message calls, with arbitrary oracles and inputs at every step. -/
inductive Reachable : FeedbackSession → Prop where
  | start (ch : FeedbackChains) (sid : String) (now : Nat) :
      Reachable (start_session ch sid now).1
  | step (ch : FeedbackChains) (msg : String) (now : Nat)
      {s : FeedbackSession} :
      Reachable s → Reachable (process_message ch s msg now).1

/-- Test fixture: an evaluation of the best quality tier. -/
def evGood : FeedbackEvaluation :=
  { is_specific := true, has_example := true,
    quality := .specific_with_example, key_points := [], reasoning := "r" }

/-- Test fixture: a vague evaluation. -/
def evVague : FeedbackEvaluation :=
  { is_specific := false, has_example := false,
    quality := .vague, key_points := [], reasoning := "too vague" }

/-- Test fixture: chains whose calls all succeed and whose synthesis output
is well formed. -/
def chW : FeedbackChains :=
  { intro_msg := some "W",
    standard_intro := fun _ => some "I",
    privacy_check := fun _ => some { is_safe := true, detected_pii := [], explanation := "" },
    evaluation := fun _ _ => some evGood,
    synthesis := fun _ _ => some "SUMMARY: s1\nSUGGESTION: g1",
    probe := fun _ _ _ _ => some "P",
    final_report_msg := some "F" }

/-- Test fixture: chains whose evaluator always reports vague feedback. -/
def chVague : FeedbackChains :=
  { chW with evaluation := fun _ _ => some evVague }

/-- A concrete run with chW: the freshly started session. -/
def sStart : FeedbackSession := (start_session chW "sid" 0).1

/-- A concrete run with chW: after one good feedback message the session is
confirming the first standard. -/
def sConfirming : FeedbackSession :=
  (process_message chW sStart "The student handled the IV setup independently" 1).1

/-- Continuing the chW run: first standard confirmed, collecting for the
second. -/
def r2 : FeedbackSession := (process_message chW sConfirming "yes" 2).1

/-- Continuing the chW run. -/
def r3 : FeedbackSession := (process_message chW r2 "fb2" 3).1

/-- Continuing the chW run. -/
def r4 : FeedbackSession := (process_message chW r3 "yes" 4).1

/-- Continuing the chW run. -/
def r5 : FeedbackSession := (process_message chW r4 "fb3" 5).1

/-- Continuing the chW run. -/
def r6 : FeedbackSession := (process_message chW r5 "yes" 6).1

/-- Continuing the chW run: confirming the fourth and last standard. -/
def r7 : FeedbackSession := (process_message chW r6 "fb4" 7).1

/-- Continuing the chW run: all four standards confirmed, COMPLETED. -/
def sDone : FeedbackSession := (process_message chW r7 "yes" 8).1

/-- Test fixture: chains whose privacy check raises (service failure). -/
def chPrivFail : FeedbackChains :=
  { chW with privacy_check := fun _ => none }

/-- Test fixture: chains whose privacy check flags every message. -/
def chUnsafe : FeedbackChains :=
  { chW with privacy_check :=
      fun _ => some { is_safe := false, detected_pii := ["name"], explanation := "contains a name" } }

/-- Test fixture: chains whose synthesis output carries no SUMMARY or
SUGGESTION line. -/
def chNoMarkers : FeedbackChains :=
  { chW with synthesis := fun _ _ => some "Here are some thoughts about the student." }

/-- Test fixture: an evaluator oracle that distinguishes the latest message
from the cumulative feedback text. -/
def chSplitEval : FeedbackChains :=
  { chW with evaluation :=
      fun fb _ => if fb = "new message" then some evVague else some evGood }

/-- A collecting-state session holding prior raw feedback, reached by one
vague round from the start with chVague. -/
def sCollected : FeedbackSession := (process_message chVague sStart "old" 1).1

/-- The record stored for the first standard inside sCollected. -/
def fbOld : StandardFeedback :=
  { standard_name := .professional_responsibility, raw_feedback := "old",
    quality_evaluation := some evVague, summary := none, suggestion := none,
    confirmed := false }

/-- The confirmed record stored for the first standard inside r2. -/
def fbConf : StandardFeedback :=
  { standard_name := .professional_responsibility,
    raw_feedback := "The student handled the IV setup independently",
    quality_evaluation := some evGood, summary := some "s1",
    suggestion := some "g1", confirmed := true }

/-- The record stored for the last standard inside r7. -/
def fbEth : StandardFeedback :=
  { standard_name := .ethical_practice, raw_feedback := "fb4",
    quality_evaluation := some evGood, summary := some "s1",
    suggestion := some "g1", confirmed := false }

/-- The final report content produced from sDone at time 5. -/
def rptW : FinalReport :=
  { session_id := "sid", generated_at := 5,
    standards_feedback :=
      [(full_name .professional_responsibility,
        ("s1", "g1", "The student handled the IV setup independently")),
       (full_name .knowledge_based_practice, ("s1", "g1", "fb2")),
       (full_name .client_focused_service, ("s1", "g1", "fb3")),
       (full_name .ethical_practice, ("s1", "g1", "fb4"))] }

end RagAgent

namespace ChatbotService

/-- Test fixture: a 100-character message. -/
def msgLong : String := String.mk (List.replicate 100 'a')

/-- Test fixture: a 120-character message. -/
def msgLong2 : String := String.mk (List.replicate 120 'b')

/-- Test fixture: an LLM whose structured reply never parses as JSON. -/
def llmNotJson : String → LLMAnalysisOutcome := fun _ => .notJson

/-- Test fixture: an LLM whose call always raises. -/
def llmRaised : String → LLMAnalysisOutcome := fun _ => .raised

end ChatbotService

namespace RagAgent

theorem add_turn_state (s : FeedbackSession) (sp : Speaker) (m : String) :
    (add_turn s sp m).state = s.state := rfl

theorem add_turn_feedback (s : FeedbackSession) (sp : Speaker) (m : String) :
    (add_turn s sp m).feedback_collected = s.feedback_collected := rfl

theorem add_turn_index (s : FeedbackSession) (sp : Speaker) (m : String) :
    (add_turn s sp m).current_standard_index = s.current_standard_index := rfl

theorem add_turn_current (s : FeedbackSession) (sp : Speaker) (m : String) :
    (add_turn s sp m).current_standard = s.current_standard := rfl

theorem add_turn_email (s : FeedbackSession) (sp : Speaker) (m : String) :
    (add_turn s sp m).preceptor_email = s.preceptor_email := rfl

theorem add_turn_history (s : FeedbackSession) (sp : Speaker) (m : String) :
    (add_turn s sp m).conversation_history = s.conversation_history ++ [⟨sp, m⟩] := rfl

attribute [simp] add_turn_state add_turn_feedback add_turn_index
  add_turn_current add_turn_email

theorem step_wrap_state (p : FeedbackSession × Option String) :
    (step_wrap p).1.state = p.1.state := by
  cases h : p.2 <;> simp [step_wrap, h]

theorem step_wrap_feedback (p : FeedbackSession × Option String) :
    (step_wrap p).1.feedback_collected = p.1.feedback_collected := by
  cases h : p.2 <;> simp [step_wrap, h]

theorem step_wrap_index (p : FeedbackSession × Option String) :
    (step_wrap p).1.current_standard_index = p.1.current_standard_index := by
  cases h : p.2 <;> simp [step_wrap, h]

theorem step_wrap_current (p : FeedbackSession × Option String) :
    (step_wrap p).1.current_standard = p.1.current_standard := by
  cases h : p.2 <;> simp [step_wrap, h]

theorem step_wrap_email (p : FeedbackSession × Option String) :
    (step_wrap p).1.preceptor_email = p.1.preceptor_email := by
  cases h : p.2 <;> simp [step_wrap, h]

attribute [simp] step_wrap_state step_wrap_feedback step_wrap_index
  step_wrap_current step_wrap_email

theorem dlookup_dset (m : List (StandardName × StandardFeedback))
    (k : StandardName) (v : StandardFeedback) (k' : StandardName) :
    dlookup (dset m k v) k' = if k' = k then some v else dlookup m k' := by
  induction m with
  | nil =>
    by_cases h : k' = k <;> simp [dset, dlookup, h]
  | cons hd tl ih =>
    obtain ⟨a, b⟩ := hd
    by_cases h1 : k = a
    · subst h1
      by_cases h2 : k' = k <;> simp [dset, dlookup, h2]
    · by_cases h2 : k' = a
      · subst h2
        have hne : ¬ k' = k := fun hh => h1 hh.symm
        simp [dset, dlookup, h1, hne]
      · simp [dset, dlookup, h1, h2, ih]

theorem process_message_priv_err (ch : FeedbackChains) (s : FeedbackSession)
    (msg : String) (now : Nat) (h : ch.privacy_check msg = none) :
    process_message ch s msg now = (add_turn s .preceptor msg, none) := by
  simp [process_message, h]

theorem process_message_flagged (ch : FeedbackChains) (s : FeedbackSession)
    (msg : String) (now : Nat) (pr : PrivacyCheckResult)
    (h1 : ch.privacy_check msg = some pr) (h2 : pr.is_safe = false) :
    process_message ch s msg now =
      (add_turn (add_turn s .preceptor msg) .assistant privacy_violation_msg,
       some privacy_violation_msg) := by
  simp [process_message, h1, h2]

theorem process_message_collecting (ch : FeedbackChains) (s : FeedbackSession)
    (msg : String) (now : Nat) (pr : PrivacyCheckResult)
    (h1 : ch.privacy_check msg = some pr) (h2 : pr.is_safe = true)
    (h3 : s.state = .collecting_feedback) :
    process_message ch s msg now =
      step_wrap (handle_feedback_collection ch (add_turn s .preceptor msg) msg) := by
  simp [process_message, h1, h2, h3]

theorem process_message_confirming (ch : FeedbackChains) (s : FeedbackSession)
    (msg : String) (now : Nat) (pr : PrivacyCheckResult)
    (h1 : ch.privacy_check msg = some pr) (h2 : pr.is_safe = true)
    (h3 : s.state = .confirming_standard) :
    process_message ch s msg now =
      step_wrap (handle_confirmation ch (add_turn s .preceptor msg) msg now) := by
  simp [process_message, h1, h2, h3]

theorem process_message_completed (ch : FeedbackChains) (s : FeedbackSession)
    (msg : String) (now : Nat) (pr : PrivacyCheckResult)
    (h1 : ch.privacy_check msg = some pr) (h2 : pr.is_safe = true)
    (h3 : s.state = .completed) :
    process_message ch s msg now =
      step_wrap (handle_post_completion (add_turn s .preceptor msg) msg) := by
  simp [process_message, h1, h2, h3]

theorem step_wrap_snd_isSome (p : FeedbackSession × Option String) :
    (step_wrap p).2.isSome = p.2.isSome := by
  cases h : p.2 <;> simp [step_wrap, h]

theorem parse_foldl_skip (lines : List String) (acc : String × String)
    (h1 : ∀ l ∈ lines, strStartsWith l "SUMMARY:" = false)
    (h2 : ∀ l ∈ lines, strStartsWith l "SUGGESTION:" = false) :
    lines.foldl parse_line_step acc = acc := by
  induction lines generalizing acc with
  | nil => rfl
  | cons hd tl ih =>
    have ha := h1 hd (by simp)
    have hb := h2 hd (by simp)
    rw [List.foldl_cons]
    have hstep : parse_line_step acc hd = acc := by
      simp [parse_line_step, ha, hb]
    rw [hstep]
    exact ih acc (fun l hl => h1 l (by simp [hl])) (fun l hl => h2 l (by simp [hl]))

theorem parse_no_markers (o : String)
    (h1 : hasMarkedLine o "SUMMARY:" = false)
    (h2 : hasMarkedLine o "SUGGESTION:" = false) :
    parse_synthesis_output o = ("", "") := by
  unfold hasMarkedLine at h1 h2
  rw [List.any_eq_false] at h1 h2
  unfold parse_synthesis_output
  apply parse_foldl_skip
  · intro l hl
    have := h1 l hl
    simpa using this
  · intro l hl
    have := h2 l hl
    simpa using this

theorem synth_effects (ch : FeedbackChains) (s : FeedbackSession)
    (std : StandardName) (msg : String) (o : String) (fb : StandardFeedback)
    (h7 : ch.synthesis (full_name std) msg = some o)
    (hfb : dlookup s.feedback_collected std = some fb) :
    (synthesize_and_confirm ch s std msg).1.state = .confirming_standard
    ∧ dlookup (synthesize_and_confirm ch s std msg).1.feedback_collected std
        = some { fb with summary := some (parse_synthesis_output o).1,
                         suggestion := some (parse_synthesis_output o).2 }
    ∧ (synthesize_and_confirm ch s std msg).2.isSome = true := by
  simp only [synthesize_and_confirm, h7, hfb]
  simp [dlookup_dset]

theorem synth_keeps_raw (ch : FeedbackChains) (s : FeedbackSession)
    (std : StandardName) (msg : String) (fb : StandardFeedback)
    (hfb : dlookup s.feedback_collected std = some fb) :
    ∃ fb2, dlookup (synthesize_and_confirm ch s std msg).1.feedback_collected std = some fb2
      ∧ fb2.raw_feedback = fb.raw_feedback
      ∧ fb2.quality_evaluation = fb.quality_evaluation := by
  cases ho : ch.synthesis (full_name std) msg with
  | none =>
    simp only [synthesize_and_confirm, ho]
    exact ⟨fb, hfb, rfl, rfl⟩
  | some o =>
    simp only [synthesize_and_confirm, ho, hfb]
    refine ⟨{ fb with summary := some (parse_synthesis_output o).1,
                      suggestion := some (parse_synthesis_output o).2 },
            ?_, rfl, rfl⟩
    simp [dlookup_dset]

theorem store_feedback_state (s : FeedbackSession) (std : StandardName)
    (fb : String) (ev : FeedbackEvaluation) :
    (store_feedback s std fb ev).state = s.state := by
  unfold store_feedback
  cases dlookup s.feedback_collected std <;> rfl

theorem store_feedback_current (s : FeedbackSession) (std : StandardName)
    (fb : String) (ev : FeedbackEvaluation) :
    (store_feedback s std fb ev).current_standard = s.current_standard := by
  unfold store_feedback
  cases dlookup s.feedback_collected std <;> rfl

theorem store_feedback_lookup_existing (s : FeedbackSession) (std : StandardName)
    (fb : String) (ev : FeedbackEvaluation) (fb0 : StandardFeedback)
    (h0 : dlookup s.feedback_collected std = some fb0) :
    dlookup (store_feedback s std fb ev).feedback_collected std
      = some { fb0 with raw_feedback := fb0.raw_feedback ++ "\n\n" ++ fb,
                        quality_evaluation := some ev } := by
  simp only [store_feedback, h0]
  simp [dlookup_dset]

theorem store_feedback_lookup_new (s : FeedbackSession) (std : StandardName)
    (fb : String) (ev : FeedbackEvaluation)
    (h0 : dlookup s.feedback_collected std = none) :
    dlookup (store_feedback s std fb ev).feedback_collected std
      = some { standard_name := std, raw_feedback := fb,
               quality_evaluation := some ev, summary := none,
               suggestion := none, confirmed := false } := by
  simp only [store_feedback, h0]
  simp [dlookup_dset]

theorem collect_updates_record (ch : FeedbackChains) (s : FeedbackSession)
    (msg : String) (std : StandardName) (fb0 : StandardFeedback)
    (e : FeedbackEvaluation)
    (h2 : s.current_standard = some std)
    (h0 : dlookup s.feedback_collected std = some fb0)
    (h5 : ch.evaluation msg (full_name std) = some e) :
    ∃ fb, dlookup (handle_feedback_collection ch s msg).1.feedback_collected std = some fb
      ∧ fb.raw_feedback = fb0.raw_feedback ++ "\n\n" ++ msg
      ∧ fb.quality_evaluation = some e := by
  simp only [handle_feedback_collection, h2, h5]
  by_cases hq : e.quality = FeedbackQuality.specific_with_example
  · rw [if_pos hq]
    exact synth_keeps_raw ch (store_feedback s std msg e) std msg _
      (store_feedback_lookup_existing s std msg e fb0 h0)
  · rw [if_neg hq]
    cases hp : ch.probe (full_name std) msg e.reasoning (quality_value e.quality) with
    | none =>
      simp only [hp]
      exact ⟨_, store_feedback_lookup_existing s std msg e fb0 h0, rfl, rfl⟩
    | some q =>
      simp only [hp]
      exact ⟨_, store_feedback_lookup_existing s std msg e fb0 h0, rfl, rfl⟩

theorem collect_good_effects (ch : FeedbackChains) (s : FeedbackSession)
    (msg : String) (std : StandardName) (e : FeedbackEvaluation) (o : String)
    (h2 : s.current_standard = some std)
    (h5 : ch.evaluation msg (full_name std) = some e)
    (h6 : e.quality = .specific_with_example)
    (h7 : ch.synthesis (full_name std) msg = some o) :
    (handle_feedback_collection ch s msg).1.state = .confirming_standard
    ∧ (∃ fb, dlookup (handle_feedback_collection ch s msg).1.feedback_collected std = some fb
        ∧ fb.summary = some (parse_synthesis_output o).1
        ∧ fb.suggestion = some (parse_synthesis_output o).2)
    ∧ (handle_feedback_collection ch s msg).2.isSome = true := by
  simp only [handle_feedback_collection, h2, h5]
  rw [if_pos h6]
  cases hdl : dlookup s.feedback_collected std with
  | none =>
    obtain ⟨hs, hl, ho⟩ := synth_effects ch (store_feedback s std msg e) std msg o _
      h7 (store_feedback_lookup_new s std msg e hdl)
    exact ⟨hs, ⟨_, hl, rfl, rfl⟩, ho⟩
  | some fb0 =>
    obtain ⟨hs, hl, ho⟩ := synth_effects ch (store_feedback s std msg e) std msg o _
      h7 (store_feedback_lookup_existing s std msg e fb0 hdl)
    exact ⟨hs, ⟨_, hl, rfl, rfl⟩, ho⟩

end RagAgent

namespace RagAgent

/-- C5 counterexample: when the privacy chain itself raises, process_message
returns no response at all (the exception escapes), instead of the claimed
fail-closed generic retry request. -/
theorem C5_counterexample :
    (process_message chPrivFail sStart "hello" 1).2 = none := by decide

/-- C5 amended: if the privacy check fails with a service error, the error
propagates out of process_message unhandled; the text is not processed
further and, apart from the user turn already appended to the history, the
session is unchanged.  No retry request is produced. -/
theorem C5_amended (ch : FeedbackChains) (s : FeedbackSession) (msg : String)
    (now : Nat) (h : ch.privacy_check msg = none) :
    process_message ch s msg now = (add_turn s .preceptor msg, none) :=
  process_message_priv_err ch s msg now h

/-- C5 witness for the amended theorem at a concrete failing oracle. -/
theorem C5_amended_witness :
    process_message chPrivFail sStart "hello" 1 = (add_turn sStart .preceptor "hello", none) :=
  C5_amended chPrivFail sStart "hello" 1 rfl

/-- C10: the user message is appended to the conversation history before the
privacy check runs, so a message flagged as unsafe is still stored verbatim
in the history (followed by the rephrase request). -/
theorem C10_history_retains_flagged (ch : FeedbackChains) (s : FeedbackSession)
    (msg : String) (now : Nat) (pr : PrivacyCheckResult)
    (h1 : ch.privacy_check msg = some pr) (h2 : pr.is_safe = false) :
    (process_message ch s msg now).1.conversation_history
      = s.conversation_history
        ++ [⟨.preceptor, msg⟩, ⟨.assistant, privacy_violation_msg⟩] := by
  rw [process_message_flagged ch s msg now pr h1 h2]
  simp [add_turn_history]

/-- C10 witness at a concrete flagged message. -/
theorem C10_witness :
    (process_message chUnsafe sStart "Jane at St Marys on June 3" 1).1.conversation_history
      = sStart.conversation_history
        ++ [⟨.preceptor, "Jane at St Marys on June 3"⟩,
            ⟨.assistant, privacy_violation_msg⟩] :=
  C10_history_retains_flagged chUnsafe sStart "Jane at St Marys on June 3" 1 _ rfl rfl

/-- C7: in the confirming state, a safe reply matching neither the revision
nor the confirmation lexicon leaves the state, the category index and the
stored category results entirely unchanged. -/
theorem C7_ambiguous_no_change (ch : FeedbackChains) (s : FeedbackSession)
    (msg : String) (now : Nat) (pr : PrivacyCheckResult)
    (h1 : ch.privacy_check msg = some pr) (h2 : pr.is_safe = true)
    (h3 : s.state = .confirming_standard)
    (hrev : containsAny (toLower msg) revise_words = false)
    (hconf : containsAny (toLower msg) confirm_words = false) :
    (process_message ch s msg now).1.state = .confirming_standard
    ∧ (process_message ch s msg now).1.current_standard_index = s.current_standard_index
    ∧ (process_message ch s msg now).1.feedback_collected = s.feedback_collected := by
  rw [process_message_confirming ch s msg now pr h1 h2 h3]
  simp [handle_confirmation, hrev, hconf, h3]

/-- C7 witness: the concrete ambiguous reply hmm while confirming. -/
theorem C7_witness :
    (process_message chW sConfirming "hmm" 9).1.state = .confirming_standard
    ∧ (process_message chW sConfirming "hmm" 9).1.current_standard_index
        = sConfirming.current_standard_index
    ∧ (process_message chW sConfirming "hmm" 9).1.feedback_collected
        = sConfirming.feedback_collected :=
  C7_ambiguous_no_change chW sConfirming "hmm" 9 _ rfl rfl (by decide) (by decide) (by decide)

/-- C2 counterexample: a revision request while confirming transitions back
to collecting and keeps the raw feedback, but the stored summary and
suggestion are NOT set back to null — they keep their values. -/
theorem C2_counterexample :
    (process_message chW sConfirming "No, that is not right" 9).1.state = .collecting_feedback
    ∧ ((dlookup (process_message chW sConfirming "No, that is not right" 9).1.feedback_collected
          .professional_responsibility).map
        (fun fb => (fb.summary, fb.suggestion, fb.raw_feedback)))
      = some (some "s1", some "g1", "The student handled the IV setup independently") := by
  decide

/-- C2 amended: a revision request in the confirming state transitions the
session to COLLECTING_FEEDBACK and leaves the stored category results
completely unchanged: raw feedback is retained and the summary and
suggestion are not cleared (they are only overwritten by the next
synthesis). -/
theorem C2_amended (ch : FeedbackChains) (s : FeedbackSession) (msg : String)
    (now : Nat) (pr : PrivacyCheckResult)
    (h1 : ch.privacy_check msg = some pr) (h2 : pr.is_safe = true)
    (h3 : s.state = .confirming_standard)
    (h4 : containsAny (toLower msg) revise_words = true) :
    (process_message ch s msg now).1.state = .collecting_feedback
    ∧ (process_message ch s msg now).1.feedback_collected = s.feedback_collected
    ∧ (process_message ch s msg now).1.current_standard_index = s.current_standard_index := by
  rw [process_message_confirming ch s msg now pr h1 h2 h3]
  simp [handle_confirmation, h4]

/-- C2 witness at the concrete revision reply. -/
theorem C2_amended_witness :
    (process_message chW sConfirming "No, that is not right" 9).1.state = .collecting_feedback
    ∧ (process_message chW sConfirming "No, that is not right" 9).1.feedback_collected
        = sConfirming.feedback_collected
    ∧ (process_message chW sConfirming "No, that is not right" 9).1.current_standard_index
        = sConfirming.current_standard_index :=
  C2_amended chW sConfirming "No, that is not right" 9 _ rfl rfl (by decide) (by decide)

/-- C9 counterexample: the same completed session, reported at two different
times, yields two different FinalReport values and two different exported
dicts (generated_at embeds the wall clock), refuting byte-identical output
across calls. -/
theorem C9_counterexample :
    (generate_final_report sDone 0).isSome = true
    ∧ generate_final_report sDone 0 ≠ generate_final_report sDone 1
    ∧ (generate_final_report sDone 0).map FinalReport.to_dict
        ≠ (generate_final_report sDone 1).map FinalReport.to_dict := by
  decide

/-- C9 amended: generate_final_report is deterministic given the session
state and the generation time: session id and per-category content are
identical across calls on the same state, and two calls at the same time
yield the identical report; only generated_at varies with the clock. -/
theorem C9_amended (s : FeedbackSession) (t1 t2 : Nat) (r1 r2 : FinalReport)
    (h1 : generate_final_report s t1 = some r1)
    (h2 : generate_final_report s t2 = some r2) :
    r1.session_id = r2.session_id
    ∧ r1.standards_feedback = r2.standards_feedback
    ∧ (t1 = t2 → r1 = r2) := by
  unfold generate_final_report at h1 h2
  cases hC : is_complete s with
  | false =>
    rw [hC] at h1
    simp at h1
  | true =>
    rw [hC] at h1 h2
    simp at h1 h2
    subst h1
    subst h2
    refine ⟨rfl, rfl, ?_⟩
    intro ht
    subst ht
    rfl

/-- C9 witness: two reports at the same time coincide. -/
theorem C9_amended_witness :
    rptW.session_id = rptW.session_id
    ∧ rptW.standards_feedback = rptW.standards_feedback
    ∧ (5 = 5 → rptW = rptW) :=
  C9_amended sDone 5 5 rptW rptW (by decide) (by decide)

end RagAgent

namespace ChatbotService

/-- C6 counterexample: with an unparseable structured reply and a
100-character message, the analyzer silently classifies the submission as
sufficient via its length fallback. -/
theorem C6_counterexample :
    (analyze_response_quality llmNotJson msgLong).is_sufficient = true := by decide

/-- C6 amended: when the external call raises, the analyzer classifies the
submission as insufficient (it does not propagate); when the structured
reply cannot be parsed, it falls back to a length heuristic and classifies
the submission as sufficient exactly when the stripped message has at least
100 characters. -/
theorem C6_amended (llm : String → LLMAnalysisOutcome) (message : String)
    (h : llm message = .raised ∨ llm message = .notJson) :
    (analyze_response_quality llm message).is_sufficient = true ↔
      (llm message = .notJson
       ∧ 100 ≤ (RagAgent.trimChars message.toList).length) := by
  rcases h with h | h
  · unfold analyze_response_quality
    rw [h]
    constructor
    · intro hx
      split at hx <;> simp at hx
    · rintro ⟨hc, -⟩
      exact nomatch hc
  · unfold analyze_response_quality
    rw [h]
    split
    · rename_i hlt
      simp only [min_response_length] at hlt
      constructor
      · intro hx
        simp at hx
      · rintro ⟨-, hge⟩
        exfalso
        omega
    · rename_i hge
      simp only [min_response_length] at hge
      simp only [min_response_length, decide_eq_true_eq, Nat.reduceMul]
      constructor
      · intro hx
        exact ⟨trivial, hx⟩
      · rintro ⟨-, hx⟩
        exact hx

/-- C6 witness for the amended theorem: a 120-character message with an
unparseable reply is classified sufficient. -/
theorem C6_amended_witness :
    (analyze_response_quality llmNotJson msgLong2).is_sufficient = true :=
  (C6_amended llmNotJson msgLong2 (Or.inr rfl)).mpr ⟨rfl, by decide⟩

end ChatbotService

namespace RagAgent

/-- C1 counterexample: a synthesis output with no SUMMARY or SUGGESTION line
is stored best-effort as empty-string summary and suggestion, the session
moves to confirming, and a normal response is returned — no ParseFailure is
signalled and no retry happens. -/
theorem C1_counterexample :
    ((dlookup (process_message chNoMarkers sStart "The student did the assessment" 1).1.feedback_collected
        .professional_responsibility).map (fun fb => (fb.summary, fb.suggestion)))
      = some (some "", some "")
    ∧ (process_message chNoMarkers sStart "The student did the assessment" 1).1.state
        = .confirming_standard
    ∧ (process_message chNoMarkers sStart "The student did the assessment" 1).2.isSome = true := by
  decide

/-- C1 amended: when neither required field can be extracted from the
synthesis output, parse_synthesis_output yields empty strings and the
synthesis step stores these placeholder values on the category result,
transitions to confirming, and returns a normal confirmation message; no
ParseFailure is signalled and the generation call is not retried. -/
theorem C1_amended (ch : FeedbackChains) (s : FeedbackSession) (msg : String)
    (now : Nat) (std : StandardName) (pr : PrivacyCheckResult)
    (e : FeedbackEvaluation) (o : String)
    (h1 : s.state = .collecting_feedback)
    (h2 : s.current_standard = some std)
    (h3 : ch.privacy_check msg = some pr) (h4 : pr.is_safe = true)
    (h5 : ch.evaluation msg (full_name std) = some e)
    (h6 : e.quality = .specific_with_example)
    (h7 : ch.synthesis (full_name std) msg = some o)
    (h8 : hasMarkedLine o "SUMMARY:" = false)
    (h9 : hasMarkedLine o "SUGGESTION:" = false) :
    (∃ fb, dlookup (process_message ch s msg now).1.feedback_collected std = some fb
       ∧ fb.summary = some "" ∧ fb.suggestion = some "")
    ∧ (process_message ch s msg now).1.state = .confirming_standard
    ∧ (process_message ch s msg now).2.isSome = true := by
  rw [process_message_collecting ch s msg now pr h3 h4 h1]
  have h2' : (add_turn s .preceptor msg).current_standard = some std := by
    rw [add_turn_current, h2]
  obtain ⟨hs, ⟨fb, hl, hsum, hsug⟩, ho⟩ :=
    collect_good_effects ch (add_turn s .preceptor msg) msg std e o h2' h5 h6 h7
  have hparse := parse_no_markers o h8 h9
  rw [hparse] at hsum hsug
  refine ⟨⟨fb, ?_, hsum, hsug⟩, ?_, ?_⟩
  · rw [step_wrap_feedback]
    exact hl
  · rw [step_wrap_state, hs]
  · rw [step_wrap_snd_isSome, ho]

/-- C1 witness for the amended theorem at a concrete markerless output. -/
theorem C1_amended_witness :
    (∃ fb, dlookup (process_message chNoMarkers sStart "More detailed feedback here" 1).1.feedback_collected
        .professional_responsibility = some fb
       ∧ fb.summary = some "" ∧ fb.suggestion = some "")
    ∧ (process_message chNoMarkers sStart "More detailed feedback here" 1).1.state
        = .confirming_standard
    ∧ (process_message chNoMarkers sStart "More detailed feedback here" 1).2.isSome = true :=
  C1_amended chNoMarkers sStart "More detailed feedback here" 1 .professional_responsibility
    { is_safe := true, detected_pii := [], explanation := "" } evGood
    "Here are some thoughts about the student."
    (by decide) (by decide) rfl rfl rfl (by decide) rfl (by decide) (by decide)

/-- C3 counterexample: with prior feedback old stored, processing new
message stores the evaluator result on the latest message alone (evVague),
while the same oracle applied to the cumulative text would return evGood —
so the evaluator is not invoked on the cumulative feedback. -/
theorem C3_counterexample :
    ((dlookup (process_message chSplitEval sCollected "new message" 2).1.feedback_collected
        .professional_responsibility).map
      (fun fb => (fb.raw_feedback, fb.quality_evaluation)))
      = some ("old\n\nnew message", some evVague)
    ∧ chSplitEval.evaluation "old\n\nnew message" (full_name .professional_responsibility)
        = some evGood
    ∧ evVague ≠ evGood := by
  decide

/-- C3 amended: in the collecting state the message is appended to the
accumulated raw feedback of the current category, but the Quality Evaluator
is invoked on the latest message only, and its result on the latest message
is what gets stored as the category evaluation. -/
theorem C3_amended (ch : FeedbackChains) (s : FeedbackSession) (msg : String)
    (now : Nat) (std : StandardName) (fb0 : StandardFeedback)
    (e : FeedbackEvaluation) (pr : PrivacyCheckResult)
    (h1 : s.state = .collecting_feedback)
    (h2 : s.current_standard = some std)
    (h3 : ch.privacy_check msg = some pr) (h4 : pr.is_safe = true)
    (h0 : dlookup s.feedback_collected std = some fb0)
    (h5 : ch.evaluation msg (full_name std) = some e) :
    ∃ fb, dlookup (process_message ch s msg now).1.feedback_collected std = some fb
      ∧ fb.raw_feedback = fb0.raw_feedback ++ "\n\n" ++ msg
      ∧ fb.quality_evaluation = some e := by
  rw [process_message_collecting ch s msg now pr h3 h4 h1]
  have h2' : (add_turn s .preceptor msg).current_standard = some std := by
    rw [add_turn_current, h2]
  have h0' : dlookup (add_turn s .preceptor msg).feedback_collected std = some fb0 := by
    rw [add_turn_feedback]
    exact h0
  obtain ⟨fb, hl, hraw, hqe⟩ :=
    collect_updates_record ch (add_turn s .preceptor msg) msg std fb0 e h2' h0' h5
  refine ⟨fb, ?_, hraw, hqe⟩
  rw [step_wrap_feedback]
  exact hl

/-- C3 witness for the amended theorem on the concrete split oracle. -/
theorem C3_amended_witness :
    ∃ fb, dlookup (process_message chSplitEval sCollected "new message" 2).1.feedback_collected
        .professional_responsibility = some fb
      ∧ fb.raw_feedback = fbOld.raw_feedback ++ "\n\n" ++ "new message"
      ∧ fb.quality_evaluation = some evVague :=
  C3_amended chSplitEval sCollected "new message" 2 .professional_responsibility fbOld evVague
    { is_safe := true, detected_pii := [], explanation := "" }
    (by decide) (by decide) rfl rfl (by decide) rfl

/-- C4 counterexample: confirming the last standard moves the session
straight to COMPLETED while the contact address is still unset — there is
no intervening AWAITING_CONTACT state — and a later message carrying an
at-token leaves the state at COMPLETED (no transition happens on storing
the address). -/
theorem C4_counterexample :
    (process_message chW r7 "yes" 8).1.state = .completed
    ∧ (process_message chW r7 "yes" 8).1.preceptor_email = none
    ∧ (process_message chW sDone "my address is me@x.com" 9).1.state = .completed := by
  decide

/-- C4 amended: after the last category is confirmed the session goes
directly to COMPLETED (contact still unset); messages are then handled in
the COMPLETED state, where a message without an at-token changes nothing
and one with an at-token stores its first at-carrying word (stripped of
surrounding punctuation) while the state stays COMPLETED. -/
theorem C4_amended :
    (∀ ch s msg now (pr : PrivacyCheckResult) std fb,
        ch.privacy_check msg = some pr → pr.is_safe = true →
        s.state = .confirming_standard →
        containsAny (toLower msg) revise_words = false →
        containsAny (toLower msg) confirm_words = true →
        s.current_standard = some std →
        dlookup s.feedback_collected std = some fb →
        s.current_standard_index = 3 →
        (process_message ch s msg now).1.state = .completed
        ∧ (process_message ch s msg now).1.preceptor_email = s.preceptor_email)
    ∧ (∀ s msg now (ch : FeedbackChains) (pr : PrivacyCheckResult),
        ch.privacy_check msg = some pr → pr.is_safe = true →
        s.state = .completed →
        (process_message ch s msg now).1.state = .completed
        ∧ (containsSubstring msg "@" = false →
            (process_message ch s msg now).1.preceptor_email = s.preceptor_email)
        ∧ (∀ w, containsSubstring msg "@" = true →
            (splitWs msg).find? (fun x => containsSubstring x "@") = some w →
            (process_message ch s msg now).1.preceptor_email = some (stripPunct w))) := by
  constructor
  · intro ch s msg now pr std fb hpriv hsafe hstate hrev hconf hcur hrec hidx
    rw [process_message_confirming ch s msg now pr hpriv hsafe hstate]
    cases hf : ch.final_report_msg with
    | none =>
      constructor <;>
        simp [handle_confirmation, confirm_branch, advance_and_next,
              hrev, hconf, hcur, hrec, hidx, hf,
              advance_to_next_standard, get_next_standard, is_complete,
              get_standard_order]
    | some m =>
      constructor <;>
        simp [handle_confirmation, confirm_branch, advance_and_next,
              hrev, hconf, hcur, hrec, hidx, hf,
              advance_to_next_standard, get_next_standard, is_complete,
              get_standard_order]
  · intro s msg now ch pr hpriv hsafe hstate
    rw [process_message_completed ch s msg now pr hpriv hsafe hstate]
    refine ⟨?_, ?_, ?_⟩
    · cases hat : containsSubstring msg "@" with
      | false => simp [handle_post_completion, hat, hstate]
      | true =>
        cases hfind : (splitWs msg).find? (fun x => containsSubstring x "@") with
        | none => simp [handle_post_completion, hat, hfind, hstate]
        | some w => simp [handle_post_completion, hat, hfind, hstate]
    · intro hat
      simp [handle_post_completion, hat]
    · intro w hat hfind
      simp [handle_post_completion, hat, hfind]

/-- C4 witness for both parts of the amended theorem on the concrete run. -/
theorem C4_amended_witness :
    ((process_message chW r7 "yes" 8).1.state = .completed
     ∧ (process_message chW r7 "yes" 8).1.preceptor_email = r7.preceptor_email)
    ∧ (process_message chW sDone "reach me at me@x.com; thanks" 9).1.preceptor_email
        = some (stripPunct "me@x.com;") := by
  refine ⟨C4_amended.1 chW r7 "yes" 8
      { is_safe := true, detected_pii := [], explanation := "" }
      .ethical_practice fbEth rfl rfl (by decide) (by decide) (by decide)
      (by decide) (by decide) (by decide), ?_⟩
  exact (C4_amended.2 sDone "reach me at me@x.com; thanks" 9 chW
      { is_safe := true, detected_pii := [], explanation := "" }
      rfl rfl (by decide)).2.2 "me@x.com;" (by decide) (by decide)

end RagAgent

namespace RagAgent

theorem RecordsOk_dset (m : List (StandardName × StandardFeedback))
    (k : StandardName) (v : StandardFeedback) (hm : RecordsOk m)
    (hv : v.confirmed = true → v.summary.isSome = true ∧ v.suggestion.isSome = true) :
    RecordsOk (dset m k v) := by
  intro std fb hl hc
  rw [dlookup_dset] at hl
  by_cases he : std = k
  · rw [if_pos he] at hl
    injection hl with he2
    subst he2
    exact hv hc
  · rw [if_neg he] at hl
    exact hm std fb hl hc

theorem advance_feedback (s : FeedbackSession) (now : Nat) :
    (advance_to_next_standard s now).feedback_collected = s.feedback_collected := by
  simp only [advance_to_next_standard, get_next_standard]
  cases h : get_standard_order[s.current_standard_index + 1]? <;> simp [h]

theorem advance_state_ne (s : FeedbackSession) (now : Nat) :
    (advance_to_next_standard s now).state ≠ .confirming_standard := by
  simp only [advance_to_next_standard, get_next_standard]
  cases h : get_standard_order[s.current_standard_index + 1]? <;> simp [h]

theorem advance_and_next_fst (ch : FeedbackChains) (s : FeedbackSession) (now : Nat) :
    (advance_and_next ch s now).1 = advance_to_next_standard s now := by
  simp only [advance_and_next]
  split
  · cases ch.final_report_msg <;> rfl
  · cases hn : (advance_to_next_standard s now).current_standard with
    | none => simp [hn]
    | some nxt => cases hsi : ch.standard_intro (full_name nxt) <;> simp [hn, hsi]

theorem inv_advance_and_next (ch : FeedbackChains) (s : FeedbackSession) (now : Nat)
    (hrec : RecordsOk s.feedback_collected) :
    SessionInv (advance_and_next ch s now).1 := by
  rw [advance_and_next_fst]
  exact ⟨by rw [advance_feedback]; exact hrec,
         fun habs => absurd habs (advance_state_ne s now)⟩

theorem inv_step_wrap (p : FeedbackSession × Option String)
    (h : SessionInv p.1) : SessionInv (step_wrap p).1 := by
  cases hp2 : p.2 with
  | none => simp only [step_wrap, hp2]; exact h
  | some r => simp only [step_wrap, hp2]; exact h

theorem inv_synthesize_and_confirm (ch : FeedbackChains) (s : FeedbackSession)
    (std : StandardName) (msg : String)
    (hcur : s.current_standard = some std)
    (hinv : SessionInv s) :
    SessionInv (synthesize_and_confirm ch s std msg).1 := by
  cases ho : ch.synthesis (full_name std) msg with
  | none => simp only [synthesize_and_confirm, ho]; exact hinv
  | some o =>
    cases hdl : dlookup s.feedback_collected std with
    | none => simp only [synthesize_and_confirm, ho, hdl]; exact hinv
    | some fb =>
      simp only [synthesize_and_confirm, ho, hdl]
      constructor
      · exact RecordsOk_dset _ _ _ hinv.1 (fun _ => ⟨rfl, rfl⟩)
      · intro _
        refine ⟨std, { fb with summary := some (parse_synthesis_output o).1,
                               suggestion := some (parse_synthesis_output o).2 },
                hcur, ?_, rfl, rfl⟩
        simp [dlookup_dset]

theorem inv_store_feedback (s : FeedbackSession) (std : StandardName)
    (fb : String) (ev : FeedbackEvaluation)
    (hs : s.state ≠ .confirming_standard)
    (hrec : RecordsOk s.feedback_collected) :
    SessionInv (store_feedback s std fb ev) := by
  cases h : dlookup s.feedback_collected std with
  | none =>
    simp only [store_feedback, h]
    exact ⟨RecordsOk_dset _ _ _ hrec (fun hcc => absurd hcc (by simp)),
           fun habs => absurd habs hs⟩
  | some existing =>
    simp only [store_feedback, h]
    exact ⟨RecordsOk_dset _ _ _ hrec (fun hcc => hrec std existing h hcc),
           fun habs => absurd habs hs⟩

theorem inv_handle_feedback_collection (ch : FeedbackChains) (s : FeedbackSession)
    (msg : String) (hs : s.state = .collecting_feedback) (hinv : SessionInv s) :
    SessionInv (handle_feedback_collection ch s msg).1 := by
  cases hc : s.current_standard with
  | none => simp only [handle_feedback_collection, hc]; exact hinv
  | some std =>
    cases he : ch.evaluation msg (full_name std) with
    | none => simp only [handle_feedback_collection, hc, he]; exact hinv
    | some ev =>
      simp only [handle_feedback_collection, hc, he]
      have hns : s.state ≠ .confirming_standard := by rw [hs]; simp
      have hinv1 : SessionInv (store_feedback s std msg ev) :=
        inv_store_feedback s std msg ev hns hinv.1
      by_cases hq : ev.quality = FeedbackQuality.specific_with_example
      · rw [if_pos hq]
        exact inv_synthesize_and_confirm ch _ std msg
          (by rw [store_feedback_current, hc]) hinv1
      · rw [if_neg hq]
        cases hp : ch.probe (full_name std) msg ev.reasoning (quality_value ev.quality) with
        | none => simp only [hp]; exact hinv1
        | some q => simp only [hp]; exact hinv1

theorem inv_confirm_branch (ch : FeedbackChains) (s : FeedbackSession) (now : Nat)
    (hs : s.state = .confirming_standard) (hinv : SessionInv s) :
    SessionInv (confirm_branch ch s now).1 := by
  cases hc : s.current_standard with
  | none => simp only [confirm_branch, hc]; exact hinv
  | some std =>
    cases hdl : dlookup s.feedback_collected std with
    | none => simp only [confirm_branch, hc, hdl]; exact hinv
    | some fb =>
      obtain ⟨std', fb', hcur', hdl', hsum, hsug⟩ := hinv.2 hs
      rw [hc] at hcur'
      injection hcur' with he
      subst he
      rw [hdl] at hdl'
      injection hdl' with he2
      subst he2
      simp only [confirm_branch, hc, hdl]
      exact inv_advance_and_next ch _ now
        (RecordsOk_dset _ _ _ hinv.1 (fun _ => ⟨hsum, hsug⟩))

theorem inv_handle_confirmation (ch : FeedbackChains) (s : FeedbackSession)
    (msg : String) (now : Nat)
    (hs : s.state = .confirming_standard) (hinv : SessionInv s) :
    SessionInv (handle_confirmation ch s msg now).1 := by
  cases hrev : containsAny (toLower msg) revise_words with
  | true =>
    simp only [handle_confirmation, hrev, eq_self_iff_true, if_true]
    exact ⟨hinv.1, fun habs => by simp at habs⟩
  | false =>
    cases hconf : containsAny (toLower msg) confirm_words with
    | false =>
      simp [handle_confirmation, hrev, hconf]
      exact hinv
    | true =>
      simp [handle_confirmation, hrev, hconf]
      exact inv_confirm_branch ch s now hs hinv

theorem inv_handle_post_completion (s : FeedbackSession) (msg : String)
    (hinv : SessionInv s) :
    SessionInv (handle_post_completion s msg).1 := by
  simp only [handle_post_completion]
  split
  · split <;> exact ⟨hinv.1, fun habs => hinv.2 habs⟩
  · exact ⟨hinv.1, fun habs => hinv.2 habs⟩

theorem inv_process_message (ch : FeedbackChains) (s : FeedbackSession)
    (msg : String) (now : Nat) (hinv : SessionInv s) :
    SessionInv (process_message ch s msg now).1 := by
  have hinv' : SessionInv (add_turn s .preceptor msg) := hinv
  simp only [process_message]
  cases hpc : ch.privacy_check msg with
  | none => exact hinv'
  | some pr =>
    cases hb : pr.is_safe with
    | false =>
      simp only [hb, eq_self_iff_true, if_true]
      exact hinv'
    | true =>
      simp only [hb, if_false, Bool.true_eq_false]
      simp only [add_turn_state]
      cases hst : s.state with
      | collecting_feedback =>
        simp only [hst]
        exact inv_step_wrap _ (inv_handle_feedback_collection ch _ msg
          (by rw [add_turn_state]; exact hst) hinv')
      | confirming_standard =>
        simp only [hst]
        exact inv_step_wrap _ (inv_handle_confirmation ch _ msg now
          (by rw [add_turn_state]; exact hst) hinv')
      | completed =>
        simp only [hst]
        exact inv_step_wrap _ (inv_handle_post_completion _ msg hinv')
      | initialized =>
        simp only [hst]
        exact inv_step_wrap _ hinv'
      | err =>
        simp only [hst]
        exact inv_step_wrap _ hinv'

theorem inv_start_session (ch : FeedbackChains) (sid : String) (now : Nat) :
    SessionInv (start_session ch sid now).1 := by
  simp only [start_session]
  cases hi : ch.intro_msg with
  | none =>
    exact ⟨by intro std fb h hc; simp [dlookup] at h,
           by intro habs; simp at habs⟩
  | some w =>
    simp only [add_turn, get_next_standard, get_standard_order,
               List.getElem?_cons_zero]
    cases hsi : ch.standard_intro (full_name .professional_responsibility) with
    | none =>
      exact ⟨by intro std fb h hc; simp [dlookup] at h,
             by intro habs; simp at habs⟩
    | some intro =>
      exact ⟨by intro std fb h hc; simp [dlookup] at h,
             by intro habs; simp at habs⟩

theorem reachable_inv (s : FeedbackSession) (h : Reachable s) : SessionInv s := by
  induction h with
  | start ch sid now => exact inv_start_session ch sid now
  | step ch msg now hr ih => exact inv_process_message ch _ msg now ih

/-- C8: in every session state reachable from start_session through any
sequence of process_message calls (arbitrary oracles and inputs at every
step), every stored category result with confirmed = true has a non-null
summary and a non-null suggestion. -/
theorem C8_confirmed_invariant (s : FeedbackSession) (h : Reachable s)
    (std : StandardName) (fb : StandardFeedback)
    (h1 : dlookup s.feedback_collected std = some fb)
    (h2 : fb.confirmed = true) :
    fb.summary.isSome = true ∧ fb.suggestion.isSome = true :=
  (reachable_inv s h).1 std fb h1 h2

/-- C8 witness: the confirmed record of the concrete two-step run r2. -/
theorem C8_witness : fbConf.summary.isSome = true ∧ fbConf.suggestion.isSome = true :=
  C8_confirmed_invariant r2
    (Reachable.step chW "yes" 2
      (Reachable.step chW "The student handled the IV setup independently" 1
        (Reachable.start chW "sid" 0)))
    .professional_responsibility fbConf (by decide) (by decide)

end RagAgent
